import Mathlib

/-!
Verification development for the mechapy mechanical-engineering toolbox.

This file shallowly embeds the dimensional-quantity subsystem
(`mechapy/units.py`, which binds names of `pint` units), the guarded
formula functions (`mechapy/mechanics/statics.py`,
`mechapy/mechanics/mass_props.py`), the section classes
(`mechapy/mechanics/sections.py`), and the registry / entity-record
pattern (`mechapy/mechanics/materials.py`, `mechapy/design/fasteners.py`).

Numeric magnitudes are modelled as exact rationals (the Python code
computes with IEEE floats; the spec states all numeric scenarios up to
floating-point tolerance, and every scenario proved here is exact in
rational arithmetic).  Python exceptions are modelled by the `PyErr`
inductive together with `Except`-valued translations of every fallible
constructor or function.  The CSV data files shipped with the package are
external collaborators (spec section 4.4); tables are therefore
parameters of the embedded constructors, as lists of typed rows.
-/

/-- Python exception classes that the embedded code can raise.  `pint`
raises `DimensionalityError` for dimension mismatches; the remaining
constructors are the Python built-ins the source can hit. -/
inductive PyErr where
  | typeError
  | valueError
  | indexError
  | keyError
  | attributeError
  | nameError
  | dimensionalityError
  deriving DecidableEq, Repr

/-- A physical dimension: integer exponents over the base dimensions
length, mass, time and temperature (angle is dimensionless in pint, and
no other base dimension is exercised by this repository). -/
structure Dim where
  L : Int
  M : Int
  T : Int
  Th : Int
  deriving DecidableEq, Repr

namespace Dim

/-- Component-wise exponent addition (dimension of a product). -/
def mul (a b : Dim) : Dim := ⟨a.L + b.L, a.M + b.M, a.T + b.T, a.Th + b.Th⟩

/-- Component-wise exponent subtraction (dimension of a quotient). -/
def div (a b : Dim) : Dim := ⟨a.L - b.L, a.M - b.M, a.T - b.T, a.Th - b.Th⟩

/-- Component-wise exponent scaling (dimension of an integer power). -/
def zpow (a : Dim) (n : Int) : Dim := ⟨a.L * n, a.M * n, a.T * n, a.Th * n⟩

def dimless : Dim := ⟨0, 0, 0, 0⟩
def length : Dim := ⟨1, 0, 0, 0⟩
def mass : Dim := ⟨0, 1, 0, 0⟩
def time : Dim := ⟨0, 0, 1, 0⟩
def temperature : Dim := ⟨0, 0, 0, 1⟩
def area : Dim := ⟨2, 0, 0, 0⟩
def volume : Dim := ⟨3, 0, 0, 0⟩
def force : Dim := ⟨1, 1, -2, 0⟩
def pressure : Dim := ⟨-1, 1, -2, 0⟩
def density : Dim := ⟨-3, 1, 0, 0⟩
def energy : Dim := ⟨2, 1, -2, 0⟩
def frequency : Dim := ⟨0, 0, -1, 0⟩

end Dim

/-- A concrete unit: its dimension, its multiplicative scale to the SI
base representation, and an additive offset (nonzero only for the affine
temperature units).  `base_value = magnitude * scale + offset`. -/
structure UnitDef where
  dim : Dim
  scale : ℚ
  offset : ℚ
  deriving DecidableEq, Repr

namespace UnitDef

/-- Product unit (pint: offsets are dropped by multiplicative
combination, which the source only applies to non-affine units). -/
def mul (a b : UnitDef) : UnitDef := ⟨a.dim.mul b.dim, a.scale * b.scale, 0⟩

/-- Quotient unit. -/
def div (a b : UnitDef) : UnitDef := ⟨a.dim.div b.dim, a.scale / b.scale, 0⟩

/-- Integer power of a unit. -/
def zpow (a : UnitDef) (n : Int) : UnitDef := ⟨a.dim.zpow n, a.scale ^ n, 0⟩

end UnitDef

/-- A pint quantity: a magnitude paired with a concrete unit.  Its
physical dimension is the dimension of its unit. -/
structure Quantity where
  mag : ℚ
  unit : UnitDef
  deriving DecidableEq, Repr

namespace Quantity

/-- The physical dimension carried by the quantity. -/
def dim (q : Quantity) : Dim := q.unit.dim

/-- Quantity times quantity: magnitudes multiply, units multiply.  Never
fails on dimension grounds (spec section 4.2). -/
def mul (a b : Quantity) : Quantity := ⟨a.mag * b.mag, a.unit.mul b.unit⟩

/-- Quantity divided by quantity: magnitudes divide, units divide.
Never fails on dimension grounds (spec section 4.2). -/
def div (a b : Quantity) : Quantity := ⟨a.mag / b.mag, a.unit.div b.unit⟩

/-- Integer power of a quantity. -/
def zpow (a : Quantity) (n : Int) : Quantity := ⟨a.mag ^ n, a.unit.zpow n⟩

/-- Scalar times quantity (plain Python number on the left). -/
def smul (c : ℚ) (a : Quantity) : Quantity := ⟨c * a.mag, a.unit⟩

/-- Quantity divided by a scalar. -/
def sdiv (a : Quantity) (c : ℚ) : Quantity := ⟨a.mag / c, a.unit⟩

/-- Scalar divided by a quantity: magnitude divides, unit is inverted. -/
def rdiv (c : ℚ) (a : Quantity) : Quantity := ⟨c / a.mag, a.unit.zpow (-1)⟩

/-- The magnitude re-expressed in the base (SI) representation. -/
def baseValue (a : Quantity) : ℚ := a.mag * a.unit.scale + a.unit.offset

/-- Unit conversion, `Quantity.to` in pint: fails with a dimensionality
error across unrelated dimensions, otherwise re-expresses the magnitude
via the scales and offsets (spec section 4.2). -/
def toUnit (a : Quantity) (u : UnitDef) : Except PyErr Quantity :=
  if a.dim = u.dim then .ok ⟨(a.baseValue - u.offset) / u.scale, u⟩
  else .error .dimensionalityError

/-- Quantity subtraction: requires identical dimension; the right
operand is converted to the left operand unit first. -/
def sub (a b : Quantity) : Except PyErr Quantity :=
  if a.dim = b.dim then
    .ok ⟨a.mag - (b.baseValue - a.unit.offset) / a.unit.scale, a.unit⟩
  else .error .dimensionalityError

end Quantity

/-- The value of the Python float literal `math.pi`, modelled as the
corresponding decimal rational. -/
def mathPi : ℚ := 3.141592653589793

/-!
Embedding of `mechapy/units.py`: the module binds Python names to pint
units.  Each binding below records the pint unit dimension and its
exact conversion scale to SI base units.  Note the source slip on line
12: under the comment `# distance` the name `mm` is bound to
`ureg.milliliter` (a volume, scale 10⁻⁶ m³), not `ureg.millimeter`.
-/

namespace units

/-- Standard gravity used by pint for force_pound, 9.80665 m/s². -/
def g0 : ℚ := 9.80665

/-- The avoirdupois pound in kilograms, 0.45359237 kg. -/
def poundScale : ℚ := 0.45359237

-- distance block of units.py (lines 12-19)
/-- Line 12 of units.py: `mm = ureg.milliliter` — the bound pint unit is
the milliliter, dimension length³, scale 10⁻⁶ m³. -/
def mm : UnitDef := ⟨Dim.volume, 1 / 1000000, 0⟩
def cm : UnitDef := ⟨Dim.length, 1 / 100, 0⟩
def meter : UnitDef := ⟨Dim.length, 1, 0⟩
def km : UnitDef := ⟨Dim.length, 1000, 0⟩
def inch : UnitDef := ⟨Dim.length, 0.0254, 0⟩
def foot : UnitDef := ⟨Dim.length, 0.3048, 0⟩
def yard : UnitDef := ⟨Dim.length, 0.9144, 0⟩
def mile : UnitDef := ⟨Dim.length, 1609.344, 0⟩

-- time block (lines 22-25); sec = seconds = second, etc.
def second : UnitDef := ⟨Dim.time, 1, 0⟩
def minute : UnitDef := ⟨Dim.time, 60, 0⟩
def hour : UnitDef := ⟨Dim.time, 3600, 0⟩
def day : UnitDef := ⟨Dim.time, 86400, 0⟩

-- mass block (lines 28-29); lb = lbs = pound = pounds, kilogram = kg = kilgrams
def pound : UnitDef := ⟨Dim.mass, poundScale, 0⟩
def kilogram : UnitDef := ⟨Dim.mass, 1, 0⟩

-- force block (lines 32-34)
def newton : UnitDef := ⟨Dim.force, 1, 0⟩
def kN : UnitDef := ⟨Dim.force, 1000, 0⟩
def lbf : UnitDef := ⟨Dim.force, poundScale * g0, 0⟩

-- revolutions block (lines 37-38); pint revolution = 2*pi radians,
-- radian dimensionless, so rpm converts to 2*pi/60 per second (the
-- factor uses the float value of pi, as pint computes it)
def rpm : UnitDef := ⟨Dim.frequency, 2 * mathPi / 60, 0⟩
def hertz : UnitDef := ⟨Dim.frequency, 1, 0⟩

-- pressure block (lines 41-48)
def psi : UnitDef := ⟨Dim.pressure, (poundScale * g0) / (0.0254 * 0.0254), 0⟩
def ksi : UnitDef := ⟨Dim.pressure, 1000 * psi.scale, 0⟩
def megapsi : UnitDef := ⟨Dim.pressure, 1000000 * psi.scale, 0⟩
/-- Line 44: `psf = ureg.psi * 144`; in pint this expression is a
Quantity of magnitude 144 in psi, recorded here by its overall scale. -/
def psf : UnitDef := ⟨Dim.pressure, 144 * psi.scale, 0⟩
def newtons_per_square_meter : UnitDef := UnitDef.div newton (UnitDef.zpow meter 2)
def kilopascal : UnitDef := ⟨Dim.pressure, 1000, 0⟩
def megapascal : UnitDef := ⟨Dim.pressure, 1000000, 0⟩
def gigapascal : UnitDef := ⟨Dim.pressure, 1000000000, 0⟩

-- area block (lines 51-57); sq_mm/sq_cm are built from the genuine
-- pint millimeter/centimeter, not from the mis-bound name mm
def sq_in : UnitDef := UnitDef.zpow inch 2
def sq_ft : UnitDef := UnitDef.zpow foot 2
def sq_yd : UnitDef := UnitDef.zpow yard 2
def sq_mm : UnitDef := ⟨Dim.area, 1 / 1000000, 0⟩
def sq_cm : UnitDef := UnitDef.zpow cm 2
def sq_m : UnitDef := UnitDef.zpow meter 2
def sq_km : UnitDef := UnitDef.zpow km 2

-- volume block (lines 60-64); cu_mm uses the genuine pint millimeter
def cu_ft : UnitDef := UnitDef.zpow foot 3
def cu_in : UnitDef := UnitDef.zpow inch 3
def cu_mm : UnitDef := ⟨Dim.volume, 1 / 1000000000, 0⟩
def cu_cm : UnitDef := UnitDef.zpow cm 3
def cu_m : UnitDef := UnitDef.zpow meter 3

-- energy block (lines 67-71)
def btu : UnitDef := ⟨Dim.energy, 1055.05585262, 0⟩
def joule : UnitDef := ⟨Dim.energy, 1, 0⟩
def kilojoule : UnitDef := ⟨Dim.energy, 1000, 0⟩
def ftlb : UnitDef := UnitDef.mul foot lbf
def inlb : UnitDef := UnitDef.mul inch lbf

-- temperature block (lines 74-76); kelvin = magnitude*scale + offset
def degF : UnitDef := ⟨Dim.temperature, 5 / 9, 45967 / 180⟩
def degC : UnitDef := ⟨Dim.temperature, 1, 27315 / 100⟩
def degK : UnitDef := ⟨Dim.temperature, 1, 0⟩

/-- Every name assigned in `mechapy/units.py`, in source order, paired
with the unit it denotes.  Attribute access `units.<name>` in the rest
of the package resolves against exactly this list; a name absent from
it raises `AttributeError` (notably `lbm`, which the module never
defines although `materials.py` uses it). -/
def moduleNames : List (String × UnitDef) :=
  [("mm", mm), ("cm", cm), ("meter", meter), ("km", km), ("inch", inch),
   ("foot", foot), ("yard", yard), ("mile", mile),
   ("sec", second), ("seconds", second), ("second", second),
   ("minute", minute), ("minutes", minute), ("min", minute),
   ("hour", hour), ("hours", hour), ("day", day), ("days", day),
   ("lb", pound), ("lbs", pound), ("pound", pound), ("pounds", pound),
   ("kilogram", kilogram), ("kg", kilogram), ("kilgrams", kilogram),
   ("newton", newton), ("newtons", newton), ("kN", kN), ("lbf", lbf),
   ("rpm", rpm), ("hz", hertz), ("Hz", hertz), ("hertz", hertz),
   ("psi", psi), ("ksi", ksi), ("megapsi", megapsi), ("psf", psf),
   ("newtons_per_square_meter", newtons_per_square_meter),
   ("kilopascal", kilopascal), ("kPa", kilopascal),
   ("megapascal", megapascal), ("MPa", megapascal),
   ("gigapascal", gigapascal), ("GPa", gigapascal),
   ("sq_in", sq_in), ("sq_ft", sq_ft), ("sq_yd", sq_yd), ("sq_mm", sq_mm),
   ("sq_cm", sq_cm), ("sq_m", sq_m), ("sq_km", sq_km),
   ("cu_ft", cu_ft), ("cu_in", cu_in), ("cu_mm", cu_mm), ("cu_cm", cu_cm),
   ("cu_m", cu_m), ("cu_meter", cu_m),
   ("btu", btu), ("joule", joule), ("joules", joule), ("J", joule),
   ("kilojoule", kilojoule), ("kilojoules", kilojoule), ("kJ", kilojoule),
   ("ftlb", ftlb), ("footpound", ftlb), ("footpounds", ftlb),
   ("inlb", inlb), ("inchpound", inlb), ("inchpounds", inlb),
   ("degF", degF), ("degC", degC), ("degK", degK)]

/-- Python attribute access `units.<name>`: looks the name up among the
module bindings and raises `AttributeError` when it is absent. -/
def attr (name : String) : Except PyErr UnitDef :=
  match moduleNames.find? (fun p => p.1 == name) with
  | some p => .ok p.2
  | none => .error .attributeError

end units

/-!
The Dimension Guard.  The source wraps each formula function with
`@ureg.check(sig)` from pint (a third-party collaborator, not part of
this repository); spec section 4.3 specifies the wrapper: each
positional argument whose signature slot is not None must have exactly
the slot dimension, the first mismatch aborts the call before the
wrapped body runs, and a None slot places no constraint.
-/

/-- Index of the first positional argument whose non-None signature slot
disagrees with the argument dimension, if any. -/
def firstMismatch (sig : List (Option Dim)) (args : List Quantity) : Option Nat :=
  match sig, args with
  | some d :: sig', q :: args' =>
      if q.dim = d then (firstMismatch sig' args').map (· + 1)
      else some 0
  | none :: sig', _ :: args' => (firstMismatch sig' args').map (· + 1)
  | _, _ => none

/-- Modelled from the spec: the Dimension Guard wrapper (pint
`ureg.check`, spec section 4.3).  The body is given the arguments and a
side-effect counter; on the first dimension mismatch the call fails with
the pint dimensionality error, the body is never consulted and the
counter is returned untouched. -/
def guardedCall {α : Type} (sig : List (Option Dim))
    (body : List Quantity → Nat → Except PyErr α × Nat)
    (args : List Quantity) (counter : Nat) : Except PyErr α × Nat :=
  match firstMismatch sig args with
  | some _ => (.error .dimensionalityError, counter)
  | none => body args counter

/-- The guard signature of `stress_eng` (statics.py line 14):
`@ureg.check('[force]', '[area]')`. -/
def stressEngSig : List (Option Dim) := [some Dim.force, some Dim.area]

/-- `stress_eng(load, area)` from `mechapy/mechanics/statics.py` lines
14-46: guarded by `('[force]', '[area]')`, its body returns the pure
quotient `load / area`. -/
def stressEng (load area : Quantity) (counter : Nat) :
    Except PyErr Quantity × Nat :=
  guardedCall stressEngSig
    (fun args c =>
      match args with
      | [l, a] => (.ok (l.div a), c)
      | _ => (.error .typeError, c))
    [load, area] counter

/-- The guard signature of `mass_rod` (mass_props.py line 8):
`@ureg.check('[length]', '[length]', '[mass]/[volume]')`. -/
def massRodSig : List (Option Dim) :=
  [some Dim.length, some Dim.length, some Dim.density]

/-- `mass_rod(diameter, length, density)` from
`mechapy/mechanics/mass_props.py` lines 8-31: guarded by
`('[length]', '[length]', '[mass]/[volume]')`, its body returns
`(math.pi * diameter ** 2 * length * density) / 4`. -/
def massRod (diameter length density : Quantity) (counter : Nat) :
    Except PyErr Quantity × Nat :=
  guardedCall massRodSig
    (fun args c =>
      match args with
      | [d, l, rho] =>
          (.ok ((((Quantity.smul mathPi (d.zpow 2)).mul l).mul rho).sdiv 4), c)
      | _ => (.error .typeError, c))
    [diameter, length, density] counter

/-!
Embedding of the `Circle` section class,
`mechapy/mechanics/sections.py` lines 83-91.  The constructor inspects
`dict(ureg.get_dimensionality(diameter))`, raising `AttributeError`
when the key `[length]` is absent, i.e. exactly when the length
exponent of the argument dimension is zero; pint reports only nonzero
exponents.  Note line 87: `self.area = math.pi * diameter` — the
diameter is not squared, so the area attribute keeps dimension length.
-/

/-- The attribute record built by a successful `Circle(diameter)`. -/
structure CircleRec where
  area : Quantity
  moment_inertia : Quantity
  section_modulus : Quantity
  polar_moment_inertia : Quantity
  radius_gyration : Quantity
  deriving DecidableEq, Repr

/-- `Circle.__init__` from sections.py lines 83-91. -/
def circleInit (diameter : Quantity) : Except PyErr CircleRec :=
  if diameter.dim.L = 0 then .error .attributeError
  else
    .ok { area := Quantity.smul mathPi diameter
          moment_inertia := (Quantity.smul mathPi (diameter.zpow 4)).sdiv 64
          section_modulus := (Quantity.smul mathPi (diameter.zpow 3)).sdiv 32
          polar_moment_inertia := (Quantity.smul mathPi (diameter.zpow 4)).sdiv 32
          radius_gyration := diameter.sdiv 4 }

/-!
Shared modelling helpers for the Python object layer: dynamic values,
the attribute dictionary written by `setattr`, and the subset of the
`float(...)` string parser the thread tables exercise.
-/

/-- A dynamic Python value, as far as the embedded constructors need:
`None`, a number, a string, a pint quantity, or a tuple/list. -/
inductive PyVal where
  | none
  | num (q : ℚ)
  | str (s : String)
  | quant (q : Quantity)
  | tup (xs : List PyVal)

/-- `setattr(self, name, v)` on an object whose attribute dictionary is
`attrs`: an existing binding is overwritten in place (Python dicts keep
the original insertion position), a new name is appended. -/
def pySetAttr {α : Type} (attrs : List (String × α)) (name : String) (v : α) :
    List (String × α) :=
  if attrs.any (fun p => p.1 == name) then
    attrs.map (fun p => if p.1 == name then (p.1, v) else p)
  else attrs ++ [(name, v)]

/-- Attribute lookup on an attribute dictionary. -/
def pyGetAttr {α : Type} (attrs : List (String × α)) (name : String) : Option α :=
  (attrs.find? (fun p => p.1 == name)).map (fun p => p.2)

/-- The characters the source feeds to `str.replace`. -/
def dashChar : Char := Char.ofNat 45

/-- The replacement underscore character. -/
def underscoreChar : Char := Char.ofNat 95

/-- The space character. -/
def spaceChar : Char := Char.ofNat 32

/-- Python `str.lower()`: character-wise lowercasing (kernel-reducible
model of the library routine). -/
def pyLower (s : String) : String := String.mk (s.data.map Char.toLower)

/-- Python `str.replace(a, b)` for one-character patterns, the only
shape the source uses. -/
def pyReplaceChar (s : String) (a b : Char) : String :=
  String.mk (s.data.map (fun c => if c = a then b else c))

/-- Fuel-driven splitter core for `pySplit`; the fuel starts above the
input length, so it never runs out for a non-empty separator. -/
def pySplitCore (sep : List Char) : Nat → List Char → List Char → List (List Char)
  | 0, acc, rest => [acc.reverse ++ rest]
  | _ + 1, acc, [] => [acc.reverse]
  | fuel + 1, acc, c :: cs =>
      if sep.isPrefixOf (c :: cs) then
        acc.reverse :: pySplitCore sep fuel [] (List.drop sep.length (c :: cs))
      else pySplitCore sep fuel (c :: acc) cs

/-- Python `s.split(sep)` for a non-empty separator (kernel-reducible
model of the library routine). -/
def pySplit (s : String) (sep : String) : List String :=
  (pySplitCore sep.data (s.data.length + 1) [] s.data).map (fun l => String.mk l)

/-- The value of a digit string. -/
def digitsVal (l : List Char) : Nat :=
  l.foldl (fun acc c => acc * 10 + (c.toNat - 48)) 0

/-- Python `float(s)` restricted to the shapes occurring in the thread
tables: a non-negative decimal literal (digits with at most one dot).
Anything else — in particular the irregular value `4 1/2`, which
contains a space and a slash — raises `ValueError`, modelled as
`Option.none`. -/
def pyFloat (s : String) : Option ℚ :=
  match pySplit s "." with
  | [intPart] =>
      if intPart.data.length > 0 && intPart.data.all Char.isDigit then
        some (digitsVal intPart.data)
      else Option.none
  | [intPart, fracPart] =>
      if (intPart.data.length > 0 || fracPart.data.length > 0)
          && intPart.data.all Char.isDigit && fracPart.data.all Char.isDigit then
        some ((digitsVal intPart.data : ℚ) +
          (digitsVal fracPart.data : ℚ) / (10 : ℚ) ^ fracPart.data.length)
      else Option.none
  | _ => Option.none

/-!
Embedding of `mechapy/design/fasteners.py`.  The CSV data files are
external collaborators; each constructor takes the table it would read
as a list of typed rows (one structure field per column the source
consumes).
-/

/-- One row of `unified_screw_threads.csv`, restricted to the columns
`UnifiedScrewThread.__init__` reads.  `min_dia` is optional: the source
wraps its use in a bare try/except. -/
structure UstRow where
  size : String
  fit_class : String
  allowance : ℚ
  max_major_dia : ℚ
  min_major_dia : ℚ
  min_dia : Option ℚ
  max_pitch : ℚ
  min_pitch : ℚ
  minor_dia : ℚ
  deriving DecidableEq, Repr

/-- The attributes set by a successful `UnifiedScrewThread.__init__`. -/
structure UstRec where
  size : String
  threads_per_inch : Quantity
  series : String
  fit_class : String
  allowance : ℚ
  major_dia : Quantity
  major_dia_min : Quantity
  min_dia : Option Quantity
  pitch : ℚ
  pitch_min : ℚ
  minor_dia : ℚ
  stress_area : Quantity
  deriving DecidableEq, Repr

/-- `UnifiedScrewThread.__init__(size, fit_class)` from fasteners.py
lines 23-47.  The pandas row filter keeps rows whose `size` and
`fit_class` columns equal the arguments; `...to_dict(orient=records)[0]`
raises `IndexError` on an empty match.  The threads-per-inch field is
parsed out of the irregular `size` string, special-casing the
documented value `4 1/2`; `stress_area` is
`(pi/4) * (major_dia - 0.938194/threads_per_inch) ** 2`. -/
def unifiedScrewThreadInit (table : List UstRow) (size fit_class : String) :
    Except PyErr UstRec :=
  match table.filter (fun r => r.size == size && r.fit_class == fit_class) with
  | [] => .error .indexError
  | props :: _ => do
      let sizeParts := pySplit props.size "-"
      let afterDash ← match sizeParts.get? 1 with
        | some s => Except.ok s
        | Option.none => Except.error PyErr.indexError
      let tpiStr := (pySplit afterDash " U").headD ""
      let tpi ← match pyFloat tpiStr with
        | some v => Except.ok v
        | Option.none =>
            if tpiStr == "4 1/2" then Except.ok ((9 : ℚ) / 2)
            else Except.error PyErr.valueError
      let threads_per_inch : Quantity := ⟨tpi, units.inch.zpow (-1)⟩
      let major_dia : Quantity := ⟨props.max_major_dia, units.inch⟩
      let inner ← major_dia.sub (Quantity.rdiv 0.938194 threads_per_inch)
      Except.ok
        { size := sizeParts.headD ""
          threads_per_inch := threads_per_inch
          series := (pySplit props.size " ").getLastD ""
          fit_class := props.fit_class
          allowance := props.allowance
          major_dia := major_dia
          major_dia_min := ⟨props.min_major_dia, units.inch⟩
          min_dia := props.min_dia.map (fun v => ⟨v, units.inch⟩)
          pitch := props.max_pitch
          pitch_min := props.min_pitch
          minor_dia := props.minor_dia
          stress_area := Quantity.smul (mathPi / 4) (inner.zpow 2) }

/-- One row of `metric_screw_threads.csv`, restricted to the columns
`MetricThread.__init__` reads. -/
structure MetricRow where
  size : String
  pitch : ℚ
  major_dia : ℚ
  minor_dia : ℚ
  stress_area : ℚ
  deriving DecidableEq, Repr

/-- The attributes set by a successful `MetricThread.__init__`. -/
structure MetricRec where
  size : String
  pitch : ℚ
  major_dia : Quantity
  minor_dia : Quantity
  stress_area : Quantity
  deriving DecidableEq, Repr

/-- `MetricThread.__init__(size)` from fasteners.py lines 54-63: the
numeric diameter columns are multiplied by the imported name `mm` and
the stress-area column by `mm ** 2`, where `mm` is the unit bound on
line 12 of units.py. -/
def metricThreadInit (table : List MetricRow) (size : String) :
    Except PyErr MetricRec :=
  match table.filter (fun r => r.size == size) with
  | [] => .error .indexError
  | props :: _ =>
      .ok { size := props.size
            pitch := props.pitch
            major_dia := ⟨props.major_dia, units.mm⟩
            minor_dia := ⟨props.minor_dia, units.mm⟩
            stress_area := ⟨props.stress_area, units.mm.zpow 2⟩ }

/-- The state of a `UnifiedThreadRegistry` object: its attribute
dictionary. -/
structure UnifiedThreadRegistry where
  attrs : List (String × UstRec)
  deriving DecidableEq, Repr

/-- `UnifiedThreadRegistry.__init__` from fasteners.py lines 70-81:
zips the size and fit-class columns, builds a `UnifiedScrewThread` per
row, and stores it under
`thread_ + (size + _ + fitclass).replace(-, _).replace(space, _).lower()`
via `setattr`; a repeated derived name silently overwrites. -/
def unifiedThreadRegistryInit (table : List UstRow) :
    Except PyErr UnifiedThreadRegistry := do
  let attrs ← table.foldlM
    (fun acc r => do
      let thread ← unifiedScrewThreadInit table r.size r.fit_class
      let attrName := "thread_" ++
        pyLower (pyReplaceChar (pyReplaceChar (r.size ++ "_" ++ r.fit_class)
          dashChar underscoreChar) spaceChar underscoreChar)
      Except.ok (pySetAttr acc attrName thread))
    []
  Except.ok ⟨attrs⟩

/-- `UnifiedThreadRegistry.add_custom_thread(props)` from fasteners.py
lines 83-84: the body is `pass` — it validates nothing, raises nothing
and leaves the registry exactly as it was. -/
def addCustomThread (reg : UnifiedThreadRegistry) (props : PyVal) :
    Except PyErr UnifiedThreadRegistry :=
  .ok reg

/-!
Embedding of `mechapy/mechanics/materials.py`.
-/

/-- Python tuple/iterable unpacking `key, value = v`: succeeds exactly
on iterables of two elements (a two-tuple, or a two-character string
whose characters become one-character strings); other iterables raise
`ValueError`, non-iterables raise `TypeError`. -/
def unpack2 (v : PyVal) : Except PyErr (PyVal × PyVal) :=
  match v with
  | .tup [a, b] => .ok (a, b)
  | .tup _ => .error .valueError
  | .str s =>
      match s.data with
      | [c1, c2] => .ok (.str (String.mk [c1]), .str (String.mk [c2]))
      | _ => .error .valueError
  | _ => .error .typeError

/-- `v` is an iterable of exactly two elements (the values Python can
unpack as `key, value = v` up to the `setattr` that follows). -/
def twoElemIterable : PyVal → Prop
  | .tup xs => xs.length = 2
  | .str s => s.data.length = 2
  | _ => False

instance (v : PyVal) : Decidable (twoElemIterable v) := by
  cases v <;> simp only [twoElemIterable] <;> infer_instance

/-- The kwargs loop shared by `CustomMaterial.__init__` and
`CustomMetal.__init__`: `for key, value in kwargs.values(): setattr(...)`
iterates the dictionary VALUES and unpacks each one as a pair; the
unpacked key must then be a string for `setattr`. -/
def kwargsLoop (attrs : List (String × PyVal)) (kwargs : List (String × PyVal)) :
    Except PyErr (List (String × PyVal)) :=
  kwargs.foldlM
    (fun acc kv => do
      let (k, v) ← unpack2 kv.2
      match k with
      | .str s => Except.ok (pySetAttr acc s v)
      | _ => Except.error PyErr.typeError)
    attrs

/-- `CustomMaterial.__init__(name, density, tensile_strength, mod_elast,
**kwargs)` from materials.py lines 32-38: sets the four named
attributes, then runs the malformed kwargs loop. -/
def customMaterialInit (name density tensile_strength mod_elast : PyVal)
    (kwargs : List (String × PyVal)) : Except PyErr (List (String × PyVal)) :=
  kwargsLoop
    [("name", name), ("density", density),
     ("tensile_strength", tensile_strength), ("mod_elast", mod_elast)]
    kwargs

/-- A positional call of `CustomMaterial.__init__`: besides `self` the
method declares exactly four positional parameters, so any other number
of explicit positional arguments raises `TypeError`. -/
def customMaterialInitCall (posArgs : List PyVal)
    (kwargs : List (String × PyVal)) : Except PyErr (List (String × PyVal)) :=
  match posArgs with
  | [n, d, t, m] => customMaterialInit n d t m kwargs
  | _ => .error .typeError

/-- `CustomMetal.__init__(name, density, mod_elast, tensile_strength,
poissons_ratio, **kwargs)` from materials.py lines 61-66: line 63 calls
`super().__init__(self, name, density, tensile_strength, mod_elast)`,
passing `self` again on top of the implicit receiver — five explicit
positional arguments against four declared parameters, so the super
call raises `TypeError` before any attribute is set. -/
def customMetalInit (selfV name density mod_elast tensile_strength
    poissons_ratio : PyVal) (kwargs : List (String × PyVal)) :
    Except PyErr (List (String × PyVal)) := do
  let base ← customMaterialInitCall
    [selfV, name, density, tensile_strength, mod_elast] []
  kwargsLoop (pySetAttr base "poissons_ratio" poissons_ratio) kwargs

/-- One row of `base_metal_props.csv`, restricted to the columns the
source consumes. -/
structure BaseRow where
  metal : String
  e_gpa : ℚ
  g_gpa : ℚ
  rho : ℚ
  nu : ℚ
  w : ℚ
  e_mpsi : ℚ
  g_mpsi : ℚ
  alpha_microc : ℚ
  deriving DecidableEq, Repr

/-- The attributes set by a successful `Metal.__init__`. -/
structure MetalRec where
  density : Quantity
  mod_elast : Quantity
  mod_rigid : Quantity
  poissons_ratio : ℚ
  base_metal : String
  deriving DecidableEq, Repr

/-- `Metal.__init__(base_mat_alloy, unit)` from materials.py lines
245-264: validates the alloy name and the unit selector, then populates
the record from the SI columns (`rho`, `e_gpa`, `g_gpa`) or the
imperial columns (`w`, `e_mpsi`, `g_mpsi`).  The imperial branch
evaluates `units.lbm`, a name `mechapy/units.py` never defines, so it
raises `AttributeError`.  (The SI density deliberately mirrors the
source slip `rho * (units.newtons / units.kilogram)`.) -/
def metalInit (baseTable : List BaseRow) (base_mat_alloy : String)
    (unit : String) : Except PyErr MetalRec :=
  if ¬ baseTable.any (fun r => r.metal == base_mat_alloy) then
    .error .nameError
  else if ¬ (unit == "SI" || unit == "Imperial") then
    .error .nameError
  else do
    let select_mat ← match baseTable.find? (fun r => r.metal == base_mat_alloy) with
      | some r => Except.ok r
      | Option.none => Except.error PyErr.keyError
    if unit == "SI" then do
      let newtons ← units.attr "newtons"
      let kilogram ← units.attr "kilogram"
      let gigapascal ← units.attr "gigapascal"
      Except.ok
        { density := ⟨select_mat.rho, newtons.div kilogram⟩
          mod_elast := ⟨select_mat.e_gpa, gigapascal⟩
          mod_rigid := ⟨select_mat.g_gpa, gigapascal⟩
          poissons_ratio := select_mat.nu
          base_metal := select_mat.metal }
    else do
      let lbm ← units.attr "lbm"
      let cu_ft ← units.attr "cu_ft"
      let megapsi ← units.attr "megapsi"
      Except.ok
        { density := ⟨select_mat.w, lbm.div cu_ft⟩
          mod_elast := ⟨select_mat.e_mpsi, megapsi⟩
          mod_rigid := ⟨select_mat.g_mpsi, megapsi⟩
          poissons_ratio := select_mat.nu
          base_metal := select_mat.metal }

/-- A positional call of `Metal(...)`: besides `self` the constructor
declares `base_mat_alloy` and an optional `unit`, so one or two
explicit positional arguments are accepted and any other count raises
`TypeError`; a non-string alloy argument is never in the metals column
and fails the same `NameError` check as an unknown name. -/
def metalInitCall (baseTable : List BaseRow) (posArgs : List PyVal) :
    Except PyErr MetalRec :=
  match posArgs with
  | [a] =>
      match a with
      | PyVal.str name => metalInit baseTable name "SI"
      | _ => .error .nameError
  | [a, u] =>
      match a, u with
      | PyVal.str name, PyVal.str un => metalInit baseTable name un
      | _, _ => .error .nameError
  | _ => .error .typeError

/-- The state of a `BaseMetalRegistry` object: its attribute
dictionary. -/
structure BaseMetalRegistry where
  attrs : List (String × MetalRec)
  deriving DecidableEq, Repr

/-- `BaseMetalRegistry.__init__` from materials.py lines 92-99: one
`Metal` per row of the base-metal table, stored under
`metal.lower().replace(space, _)`. -/
def baseMetalRegistryInit (baseTable : List BaseRow) (unit : String) :
    Except PyErr BaseMetalRegistry := do
  let attrs ← baseTable.foldlM
    (fun acc r => do
      let mat ← metalInit baseTable r.metal unit
      Except.ok (pySetAttr acc (pyReplaceChar (pyLower r.metal) spaceChar underscoreChar) mat))
    []
  Except.ok ⟨attrs⟩

/-- `BaseMetalRegistry.add_base_metal(base_metal, density,
modulus_elasticity, modulus_rigidity, poissons_ratio)` from materials.py
lines 101-103: it forwards all five values positionally to `Metal`,
whose constructor accepts at most two, so the call raises `TypeError`
before the `setattr` on line 103 is reached; no duplicate-name check of
any kind is performed. -/
def addBaseMetal (baseTable : List BaseRow) (reg : BaseMetalRegistry)
    (base_metal : String) (density modulus_elasticity modulus_rigidity
    poissons_ratio : PyVal) : Except PyErr BaseMetalRegistry := do
  let metal ← metalInitCall baseTable
    [PyVal.str base_metal, density, modulus_elasticity, modulus_rigidity,
     poissons_ratio]
  Except.ok ⟨pySetAttr reg.attrs base_metal metal⟩

/-- One row of `steel_tensile_props.csv`, restricted to the columns the
source consumes. -/
structure SteelRow where
  aisi : ℕ
  treatment : String
  ts_mpa : ℚ
  ys_mpa : ℚ
  elongation_pct : ℚ
  area_reduction : ℚ
  brinell_hardness : ℚ
  izod_impact_j : ℚ
  ts_ksi : ℚ
  ys_ksi : ℚ
  deriving DecidableEq, Repr

/-- The attributes set by a successful `CarbonSteel.__init__`.  The
unit-dependent attributes are `Option`-valued: the SI branch sets one
group, the imperial branch another (including the misspelled
`yields_strength`), and an unrecognised selector sets none of them —
the constructor performs no unit validation. -/
structure CarbonSteelRec where
  base_metal : String
  aisi : ℕ
  treatment : String
  elongation_pct : ℚ
  area_reduction_pct : ℚ
  brinell_hardness : ℚ
  poissons_ratio : ℚ
  density : Option Quantity
  tensile_strength : Option Quantity
  yield_strength : Option Quantity
  yields_strength : Option Quantity
  izod_impact : Option Quantity
  mod_elast : Option Quantity
  mod_rigid : Option Quantity
  coeff_therm_exp : Option ℚ
  deriving DecidableEq, Repr

/-- `CarbonSteel.__init__(aisi, treatment, unit)` from materials.py
lines 299-341: validates `aisi` against the documented specification
list (raising `ValueError` otherwise, before any table access) and
`treatment` against the documented treatment list (`NameError`), pulls
the first matching row of the tensile-property table (`IndexError` if
no row matches) and the `Carbon Steel` row of the base-metal table,
then populates the unit-dependent quantities; the imperial branch
evaluates the undefined `units.lbm` and raises `AttributeError`. -/
def carbonSteelInit (steelTable : List SteelRow) (baseTable : List BaseRow)
    (aisi : ℕ) (treatment : String) (unit : String) :
    Except PyErr CarbonSteelRec :=
  if ¬ [1015, 1020, 1030, 1040, 1050, 1095, 1118, 3140, 4130, 4140, 4340,
        6150, 8650, 8740, 9255].contains aisi then
    .error .valueError
  else if ¬ ["As-rolled", "Normalized", "Annealed"].contains treatment then
    .error .nameError
  else do
    let props ← match steelTable.filter
        (fun r => r.aisi == aisi && r.treatment == treatment) with
      | [] => Except.error PyErr.indexError
      | p :: _ => Except.ok p
    let select_mat ← match baseTable.find? (fun r => r.metal == "Carbon Steel") with
      | some r => Except.ok r
      | Option.none => Except.error PyErr.keyError
    let common : CarbonSteelRec :=
      { base_metal := select_mat.metal
        aisi := aisi
        treatment := treatment
        elongation_pct := props.elongation_pct
        area_reduction_pct := props.area_reduction
        brinell_hardness := props.brinell_hardness
        poissons_ratio := select_mat.nu
        density := Option.none
        tensile_strength := Option.none
        yield_strength := Option.none
        yields_strength := Option.none
        izod_impact := Option.none
        mod_elast := Option.none
        mod_rigid := Option.none
        coeff_therm_exp := Option.none }
    if unit == "SI" then do
      let kg ← units.attr "kg"
      let cu_m ← units.attr "cu_m"
      let megapascal ← units.attr "megapascal"
      let joule ← units.attr "joule"
      let gigapascal ← units.attr "gigapascal"
      Except.ok
        { common with
          density := some ⟨select_mat.rho, kg.div cu_m⟩
          tensile_strength := some ⟨props.ts_mpa, megapascal⟩
          yield_strength := some ⟨props.ys_mpa, megapascal⟩
          izod_impact := some ⟨props.izod_impact_j, joule⟩
          mod_elast := some ⟨select_mat.e_gpa, gigapascal⟩
          mod_rigid := some ⟨select_mat.g_gpa, gigapascal⟩
          coeff_therm_exp := some select_mat.alpha_microc }
    else if unit == "Imperial" then do
      let lbm ← units.attr "lbm"
      let cu_in ← units.attr "cu_in"
      let ksi ← units.attr "ksi"
      let joules ← units.attr "joules"
      let ftlb ← units.attr "ftlb"
      let megapsi ← units.attr "megapsi"
      let izod ← Quantity.toUnit ⟨props.izod_impact_j, joules⟩ ftlb
      Except.ok
        { common with
          density := some ⟨select_mat.w, lbm.div cu_in⟩
          tensile_strength := some ⟨props.ts_ksi, ksi⟩
          yields_strength := some ⟨props.ys_ksi, ksi⟩
          izod_impact := some izod
          mod_elast := some ⟨select_mat.e_mpsi, megapsi⟩
          mod_rigid := some ⟨select_mat.g_mpsi, megapsi⟩ }
    else
      Except.ok common

/-- The state of a `CarbonSteelRegistry` object: its attribute
dictionary. -/
structure CarbonSteelRegistry where
  attrs : List (String × CarbonSteelRec)
  deriving DecidableEq, Repr

/-- `CarbonSteelRegistry.__init__(unit)` from materials.py lines
119-127: one `CarbonSteel` per row of the tensile-property table (each
record is re-looked-up by its aisi/treatment key, hence always built
from the first matching row), stored via `setattr` under
`aisi + str(aisi) + _ + treatment.lower()`; a repeated derived name
silently overwrites the earlier binding. -/
def carbonSteelRegistryInit (steelTable : List SteelRow)
    (baseTable : List BaseRow) (unit : String) :
    Except PyErr CarbonSteelRegistry := do
  let attrs ← steelTable.foldlM
    (fun acc r => do
      let mat ← carbonSteelInit steelTable baseTable r.aisi r.treatment unit
      let attrName := "aisi" ++ toString r.aisi ++ "_" ++ pyLower r.treatment
      Except.ok (pySetAttr acc attrName mat))
    []
  Except.ok ⟨attrs⟩

/-!
Concrete fixture rows used by the scenario theorems below.  The CSV
files are external collaborators; these rows carry representative
values shaped exactly like the documented schemas (the carbon-steel
1015 row uses the documented values ts 421 MPa / ys 314 MPa).
-/

/-- The AISI 1015 As-rolled row of the carbon-steel tensile table. -/
def steelRow1015 : SteelRow :=
  { aisi := 1015, treatment := "As-rolled", ts_mpa := 421, ys_mpa := 314,
    elongation_pct := 39, area_reduction := 61, brinell_hardness := 126,
    izod_impact_j := 110, ts_ksi := 61, ys_ksi := 45.5 }

/-- The AISI 1020 As-rolled row of the carbon-steel tensile table. -/
def steelRow1020 : SteelRow :=
  { aisi := 1020, treatment := "As-rolled", ts_mpa := 448, ys_mpa := 331,
    elongation_pct := 36, area_reduction := 59, brinell_hardness := 143,
    izod_impact_j := 87, ts_ksi := 65, ys_ksi := 48 }

/-- A second distinct row with the same aisi/treatment natural key as
`steelRow1015`, for the duplicate-derived-name scenario. -/
def steelRow1015Dup : SteelRow :=
  { aisi := 1015, treatment := "As-rolled", ts_mpa := 500, ys_mpa := 400,
    elongation_pct := 30, area_reduction := 50, brinell_hardness := 150,
    izod_impact_j := 90, ts_ksi := 72.5, ys_ksi := 58 }

/-- The Carbon Steel row of the base-metal property table. -/
def baseRowCS : BaseRow :=
  { metal := "Carbon Steel", e_gpa := 207, g_gpa := 79, rho := 7850,
    nu := 0.30, w := 0.28, e_mpsi := 30, g_mpsi := 11.5,
    alpha_microc := 11.7 }

/-- A representative unified-thread row. -/
def ustRowSample : UstRow :=
  { size := "1 1/8-7 UNC", fit_class := "2A", allowance := 0.0015,
    max_major_dia := 1.1235, min_major_dia := 1.0982,
    min_dia := some 1.0210, max_pitch := 1.0322, min_pitch := 1.0258,
    minor_dia := 0.9590 }

/-- A representative metric-thread row (M30 X 3.5). -/
def metricRowSample : MetricRow :=
  { size := "M30 X 3.5", pitch := 3.5, major_dia := 30,
    minor_dia := 26.2, stress_area := 561 }

/-- C1.  For every function wrapped by the Dimension Guard, a Quantity
argument whose dimension disagrees with its non-None signature slot
makes the call fail with the dimension-mismatch error, with the outcome
independent of the wrapped body and the side-effect counter untouched
(the body never executes); a None slot places no constraint on its
argument; in particular `stress_eng` and `mass_rod` reject any
mismatched argument this way. -/
theorem dimension_guard_rejects_mismatch :
    (∀ (α : Type) (sig : List (Option Dim))
        (body : List Quantity → Nat → Except PyErr α × Nat)
        (args : List Quantity) (c : Nat),
        (firstMismatch sig args).isSome = true →
        guardedCall sig body args c = (.error .dimensionalityError, c))
    ∧ (∀ (sig : List (Option Dim)) (args : List Quantity) (i : Nat)
        (q : Quantity),
        sig.get? i = some Option.none →
        firstMismatch sig (args.set i q) = firstMismatch sig args)
    ∧ (∀ (load area : Quantity) (c : Nat),
        load.dim ≠ Dim.force ∨ area.dim ≠ Dim.area →
        stressEng load area c = (.error .dimensionalityError, c))
    ∧ (∀ (dia len rho : Quantity) (c : Nat),
        dia.dim ≠ Dim.length ∨ len.dim ≠ Dim.length ∨
          rho.dim ≠ Dim.density →
        massRod dia len rho c = (.error .dimensionalityError, c)) := by
  refine ⟨?_, ?_, ?_, ?_⟩
  · intro α sig body args c h
    unfold guardedCall
    cases hm : firstMismatch sig args with
    | none => rw [hm] at h; simp at h
    | some i => rfl
  · intro sig
    induction sig with
    | nil => intro args i q h; simp at h
    | cons s sig' ih =>
      intro args i q h
      cases args with
      | nil => simp
      | cons a args' =>
        cases i with
        | zero =>
          simp only [List.get?] at h
          injection h with h
          subst h
          simp [firstMismatch]
        | succ i =>
          simp only [List.get?] at h
          cases s with
          | none => simp [firstMismatch, ih args' i q h]
          | some d =>
            by_cases hd : a.dim = d
            · simp [firstMismatch, hd, ih args' i q h]
            · simp [firstMismatch, hd]
  · intro load area c h
    rcases h with h | h
    · simp [stressEng, guardedCall, stressEngSig, firstMismatch, h]
    · by_cases hl : load.dim = Dim.force
      · simp [stressEng, guardedCall, stressEngSig, firstMismatch, hl, h]
      · simp [stressEng, guardedCall, stressEngSig, firstMismatch, hl]
  · intro dia len rho c h
    by_cases h1 : dia.dim = Dim.length
    · by_cases h2 : len.dim = Dim.length
      · have h3 : rho.dim ≠ Dim.density := by tauto
        simp [massRod, guardedCall, massRodSig, firstMismatch, h1, h2, h3]
      · simp [massRod, guardedCall, massRodSig, firstMismatch, h1, h2]
    · simp [massRod, guardedCall, massRodSig, firstMismatch, h1]

/-- Witness for C1: a pressure quantity offered where `stress_eng`
expects a force, and where `mass_rod` expects a length, is rejected
with the counter untouched. -/
theorem dimension_guard_rejects_mismatch_witness :
    stressEng ⟨1, units.psi⟩ ⟨100, units.sq_in⟩ 0
      = (.error .dimensionalityError, 0)
    ∧ massRod ⟨1, units.psi⟩ ⟨1, units.meter⟩ ⟨1, units.kilogram⟩ 0
      = (.error .dimensionalityError, 0) :=
  ⟨dimension_guard_rejects_mismatch.2.2.1 _ _ 0 (Or.inl (by decide)),
   dimension_guard_rejects_mismatch.2.2.2 _ _ _ 0 (Or.inl (by decide))⟩

/-- C2.  Code bug: `MetricThread` pairs the diameter columns with the
imported name `mm`, but units.py line 12 binds `mm` to the pint
milliliter (under the `# distance` comment), so on any table row the
built record carries dimension length³ for `major_dia`/`minor_dia` and
length⁶ for `stress_area` — not the length and length² the columns
document. -/
theorem metric_thread_mm_is_milliliter :
    ∃ rec, metricThreadInit [metricRowSample] "M30 X 3.5" = .ok rec
      ∧ rec.major_dia.dim = Dim.volume
      ∧ rec.major_dia.dim ≠ Dim.length
      ∧ rec.minor_dia.dim = Dim.volume
      ∧ rec.stress_area.dim = Dim.zpow Dim.length 6
      ∧ rec.stress_area.dim ≠ Dim.area
      ∧ units.mm.dim = Dim.volume := by
  refine ⟨_, rfl, ?_, ?_, ?_, ?_, ?_, ?_⟩ <;> decide

/-- C3.  Building the carbon-steel Registry from a table whose two rows
are AISI 1015 / As-rolled (ts 421 MPa) and AISI 1020 / As-rolled
produces exactly the derived names `aisi1015_as-rolled` and
`aisi1020_as-rolled`, and the record registered under
`aisi1015_as-rolled` exposes `tensile_strength` as the Quantity
421 MPa. -/
theorem carbon_steel_registry_two_rows :
    ∃ reg, carbonSteelRegistryInit [steelRow1015, steelRow1020] [baseRowCS]
        "SI" = .ok reg
      ∧ reg.attrs.map Prod.fst = ["aisi1015_as-rolled", "aisi1020_as-rolled"]
      ∧ ∃ rec, pyGetAttr reg.attrs "aisi1015_as-rolled" = some rec
          ∧ rec.tensile_strength = some ⟨421, units.megapascal⟩ :=
  ⟨_, rfl, rfl, _, rfl, rfl⟩

/-- C4 counterexample.  On a registry that already holds the thread
built from the sample row, `add_custom_thread` with any properties does
not fail with any error — contradicting the claim that the call fails
with `DuplicateKey` — and returns the registry unchanged. -/
theorem add_custom_thread_no_duplicate_key :
    ∃ reg, unifiedThreadRegistryInit [ustRowSample] = .ok reg
      ∧ (pyGetAttr reg.attrs "thread_1_1/8_7_unc_2a").isSome = true
      ∧ addCustomThread reg PyVal.none = .ok reg :=
  ⟨_, rfl, rfl, rfl⟩

/-- C4 amended.  The add-custom operations never raise `DuplicateKey`:
`add_custom_thread` is a no-op that always succeeds and leaves the
registry unchanged, while `add_base_metal` always fails with
`TypeError` (it forwards five positional arguments to `Metal`, whose
constructor accepts at most two) before reaching its `setattr`, so the
registry is also left unchanged. -/
theorem add_custom_operations_behavior :
    (∀ (reg : UnifiedThreadRegistry) (props : PyVal),
        addCustomThread reg props = .ok reg)
    ∧ (∀ (bt : List BaseRow) (reg : BaseMetalRegistry) (name : String)
        (d e r nu : PyVal),
        addBaseMetal bt reg name d e r nu = .error .typeError) :=
  ⟨fun _ _ => rfl, fun _ _ _ _ _ _ _ => rfl⟩

/-- C5 counterexample.  A carbon-steel table with two rows that share
the natural key AISI 1015 / As-rolled (and therefore the derived name)
builds without any `DuplicateDerivedName` failure: the registry ends up
with the single name `aisi1015_as-rolled`, whose record carries the
first row tensile strength 421 MPa — the second row value 500 MPa is
silently lost. -/
theorem duplicate_derived_name_no_failure :
    ∃ reg, carbonSteelRegistryInit [steelRow1015, steelRow1015Dup]
        [baseRowCS] "SI" = .ok reg
      ∧ reg.attrs.map Prod.fst = ["aisi1015_as-rolled"]
      ∧ ∃ rec, pyGetAttr reg.attrs "aisi1015_as-rolled" = some rec
          ∧ rec.tensile_strength = some ⟨421, units.megapascal⟩ :=
  ⟨_, rfl, rfl, _, rfl, rfl⟩

/-- C5 amended.  When two rows normalize to the same derived name,
registry construction succeeds silently; the collision leaves exactly
one entry, re-built from the first row matching the shared key, so the
colliding row distinct tensile strength never appears anywhere in the
registry. -/
theorem duplicate_derived_name_keeps_first :
    ∃ reg, carbonSteelRegistryInit [steelRow1015, steelRow1015Dup]
        [baseRowCS] "SI" = .ok reg
      ∧ reg.attrs.length = 1
      ∧ ∃ rec, pyGetAttr reg.attrs "aisi1015_as-rolled" = some rec
          ∧ rec.tensile_strength = some ⟨steelRow1015.ts_mpa, units.megapascal⟩
          ∧ rec.tensile_strength ≠ some ⟨steelRow1015Dup.ts_mpa, units.megapascal⟩ :=
  ⟨_, rfl, rfl, _, rfl, rfl, by decide⟩

/-- C6 counterexample.  A unified-thread lookup whose size/fit-class
pair matches no table row fails with the bare `IndexError` from
indexing an empty record list — not a `NotFound` error naming the
missed key — and `CarbonSteel(9999, ...)` fails with `ValueError` from
the membership pre-check before the table is consulted. -/
theorem lookup_zero_match_not_notfound :
    unifiedScrewThreadInit [ustRowSample] "9/16-18 UNF" "2A"
      = .error .indexError
    ∧ carbonSteelInit [steelRow1015] [baseRowCS] 9999 "As-rolled" "SI"
      = .error .valueError :=
  ⟨rfl, rfl⟩

/-- C6 amended.  Exact-match lookups that match zero rows do fail, but
with the untyped Python errors of the implementation: every
`UnifiedScrewThread` lookup with an empty filter result raises
`IndexError` (list index out of range, naming no key), and every
`CarbonSteel` call whose AISI number is outside the documented
specification list raises `ValueError` before any table access. -/
theorem lookup_zero_match_errors :
    (∀ (table : List UstRow) (size fit : String),
        table.filter (fun r => r.size == size && r.fit_class == fit) = [] →
        unifiedScrewThreadInit table size fit = .error .indexError)
    ∧ (∀ (st : List SteelRow) (bt : List BaseRow) (aisi : ℕ) (t u : String),
        [1015, 1020, 1030, 1040, 1050, 1095, 1118, 3140, 4130, 4140, 4340,
         6150, 8650, 8740, 9255].contains aisi = false →
        carbonSteelInit st bt aisi t u = .error .valueError) := by
  constructor
  · intro table size fit h
    unfold unifiedScrewThreadInit
    rw [h]
  · intro st bt aisi t u h
    unfold carbonSteelInit
    rw [h]
    simp

/-- Witness for C6 amended: both zero-match shapes evaluated on
concrete inputs. -/
theorem lookup_zero_match_errors_witness :
    unifiedScrewThreadInit [] "1-64 UNC" "2A" = .error .indexError
    ∧ carbonSteelInit [] [] 9999 "Normalized" "SI" = .error .valueError :=
  ⟨lookup_zero_match_errors.1 [] "1-64 UNC" "2A" rfl,
   lookup_zero_match_errors.2 [] [] 9999 "Normalized" "SI" (by decide)⟩

/-- C7.  Code bug: `mechapy/units.py` defines no name `lbm`, yet the
imperial branches of `Metal.__init__` and `CarbonSteel.__init__` both
evaluate `units.lbm` as their first step, so constructing any valid
base metal, or any valid carbon-steel AISI/treatment row, with the
selector `Imperial` fails with `AttributeError` instead of populating
the imperial quantities the docstrings promise. -/
theorem imperial_branch_attribute_error :
    units.attr "lbm" = .error .attributeError
    ∧ (∀ (bt : List BaseRow) (name : String),
        bt.any (fun r => r.metal == name) = true →
        metalInit bt name "Imperial" = .error .attributeError)
    ∧ (∀ (st : List SteelRow) (bt : List BaseRow) (aisi : ℕ) (t : String),
        [1015, 1020, 1030, 1040, 1050, 1095, 1118, 3140, 4130, 4140, 4340,
         6150, 8650, 8740, 9255].contains aisi = true →
        ["As-rolled", "Normalized", "Annealed"].contains t = true →
        st.filter (fun r => r.aisi == aisi && r.treatment == t) ≠ [] →
        (bt.find? (fun r => r.metal == "Carbon Steel")).isSome = true →
        carbonSteelInit st bt aisi t "Imperial" = .error .attributeError) := by
  refine ⟨rfl, ?_, ?_⟩
  · intro bt name h
    unfold metalInit
    rw [h]
    cases hf : bt.find? (fun r => r.metal == name) with
    | none =>
        rw [List.find?_eq_none] at hf
        obtain ⟨r, hr, hpr⟩ := List.any_eq_true.mp h
        exact absurd hpr (hf r hr)
    | some m => simp [hf, units.attr, units.moduleNames, Bind.bind, Except.bind]
  · intro st bt aisi t h1 h2 h3 h4
    unfold carbonSteelInit
    rw [h1, h2]
    cases hf : st.filter (fun r => r.aisi == aisi && r.treatment == t) with
    | nil => exact absurd hf h3
    | cons p rest =>
        cases hfind : bt.find? (fun r => r.metal == "Carbon Steel") with
        | none => rw [hfind] at h4; simp at h4
        | some b => simp [hf, hfind, units.attr, units.moduleNames, Bind.bind, Except.bind]

/-- Witness for C7: the imperial failure evaluated on the concrete
Carbon Steel base row and the AISI 1015 As-rolled tensile row. -/
theorem imperial_branch_attribute_error_witness :
    metalInit [baseRowCS] "Carbon Steel" "Imperial" = .error .attributeError
    ∧ carbonSteelInit [steelRow1015] [baseRowCS] 1015 "As-rolled" "Imperial"
      = .error .attributeError :=
  ⟨imperial_branch_attribute_error.2.1 [baseRowCS] "Carbon Steel" (by decide),
   imperial_branch_attribute_error.2.2 [steelRow1015] [baseRowCS] 1015
     "As-rolled" (by decide) (by decide) (by decide) (by decide)⟩

/-- C8.  1000 pound-force divided by 100 square inches yields exactly
the pressure quantity 10 lbf/in², which converts to exactly 10 psi;
`stress_eng` returns exactly this quotient, and quantity division never
fails on dimension grounds — it is total and always produces the
quotient dimension. -/
theorem stress_eng_ten_psi :
    stressEng ⟨1000, units.lbf⟩ ⟨100, units.sq_in⟩ 0
      = (.ok (Quantity.div ⟨1000, units.lbf⟩ ⟨100, units.sq_in⟩), 0)
    ∧ Quantity.div ⟨1000, units.lbf⟩ ⟨100, units.sq_in⟩
      = ⟨10, UnitDef.div units.lbf units.sq_in⟩
    ∧ (Quantity.div ⟨1000, units.lbf⟩ ⟨100, units.sq_in⟩).dim = Dim.pressure
    ∧ (Quantity.div ⟨1000, units.lbf⟩ ⟨100, units.sq_in⟩).toUnit units.psi
      = .ok ⟨10, units.psi⟩
    ∧ (∀ a b : Quantity, (a.div b).dim = a.dim.div b.dim) := by
  refine ⟨rfl, ?_, by decide, ?_, fun a b => rfl⟩
  · simp only [Quantity.div, Quantity.mk.injEq]
    norm_num
  · simp only [Quantity.toUnit, Quantity.div, Quantity.dim, Quantity.baseValue,
      UnitDef.div, UnitDef.zpow, Dim.div, Dim.zpow, units.lbf, units.sq_in,
      units.psi, units.inch, units.poundScale, units.g0, Dim.force, Dim.area,
      Dim.pressure, Dim.length, Quantity.mk.injEq]
    norm_num

/-- C9.  For every quantity of dimension length, `Circle` succeeds and
sets `area` to pi times the diameter — a quantity still of dimension
length, not length squared — with `moment_inertia` pi d⁴/64,
`section_modulus` pi d³/32, `polar_moment_inertia` pi d⁴/32 and
`radius_gyration` d/4; every argument with zero length exponent raises
`AttributeError`. -/
theorem circle_area_keeps_length_dimension :
    (∀ d : Quantity, d.dim = Dim.length →
      ∃ rec, circleInit d = .ok rec
        ∧ rec.area = Quantity.smul mathPi d
        ∧ rec.area.dim = Dim.length
        ∧ rec.area.dim ≠ Dim.area
        ∧ rec.moment_inertia = (Quantity.smul mathPi (d.zpow 4)).sdiv 64
        ∧ rec.section_modulus = (Quantity.smul mathPi (d.zpow 3)).sdiv 32
        ∧ rec.polar_moment_inertia = (Quantity.smul mathPi (d.zpow 4)).sdiv 32
        ∧ rec.radius_gyration = d.sdiv 4)
    ∧ (∀ d : Quantity, d.dim.L = 0 → circleInit d = .error .attributeError) := by
  constructor
  · intro d h
    have hL : d.dim.L = 1 := by rw [h]; decide
    refine ⟨{ area := Quantity.smul mathPi d,
              moment_inertia := (Quantity.smul mathPi (d.zpow 4)).sdiv 64,
              section_modulus := (Quantity.smul mathPi (d.zpow 3)).sdiv 32,
              polar_moment_inertia := (Quantity.smul mathPi (d.zpow 4)).sdiv 32,
              radius_gyration := d.sdiv 4 }, ?_, rfl, h, ?_, rfl, rfl, rfl, rfl⟩
    · unfold circleInit
      rw [hL]
      simp
    · show d.dim ≠ Dim.area
      rw [h]
      decide
  · intro d h
    simp [circleInit, h]

/-- Witness for C9: a 2-meter diameter builds the record, and a
kilogram (zero length exponent) is rejected. -/
theorem circle_area_keeps_length_dimension_witness :
    (∃ rec, circleInit ⟨2, units.meter⟩ = .ok rec
        ∧ rec.area = Quantity.smul mathPi ⟨2, units.meter⟩
        ∧ rec.area.dim = Dim.length
        ∧ rec.area.dim ≠ Dim.area
        ∧ rec.moment_inertia
          = (Quantity.smul mathPi (Quantity.zpow ⟨2, units.meter⟩ 4)).sdiv 64
        ∧ rec.section_modulus
          = (Quantity.smul mathPi (Quantity.zpow ⟨2, units.meter⟩ 3)).sdiv 32
        ∧ rec.polar_moment_inertia
          = (Quantity.smul mathPi (Quantity.zpow ⟨2, units.meter⟩ 4)).sdiv 32
        ∧ rec.radius_gyration = Quantity.sdiv ⟨2, units.meter⟩ 4)
    ∧ circleInit ⟨3, units.kilogram⟩ = .error .attributeError :=
  ⟨circle_area_keeps_length_dimension.1 ⟨2, units.meter⟩ rfl,
   circle_area_keeps_length_dimension.2 ⟨3, units.kilogram⟩ rfl⟩

/-- Unpacking a value that is not a two-element iterable raises an
error (ValueError on mis-sized iterables, TypeError on
non-iterables). -/
theorem unpack2_err_of_not_two (v : PyVal) (h : ¬ twoElemIterable v) :
    ∃ e, unpack2 v = .error e := by
  cases v with
  | tup xs =>
      match xs, h with
      | [], _ => exact ⟨.valueError, rfl⟩
      | [a], _ => exact ⟨.valueError, rfl⟩
      | [a, b], h => exact absurd rfl h
      | a :: b :: c :: rest, _ => exact ⟨.valueError, rfl⟩
  | str s =>
      have hl : ¬ s.data.length = 2 := h
      rcases hd : s.data with _ | ⟨c1, _ | ⟨c2, _ | ⟨c3, rest⟩⟩⟩
      · exact ⟨.valueError, by simp only [unpack2]; rw [hd]⟩
      · exact ⟨.valueError, by simp only [unpack2]; rw [hd]⟩
      · exact absurd (by rw [hd]; rfl) hl
      · exact ⟨.valueError, by simp only [unpack2]; rw [hd]⟩
  | none => exact ⟨.typeError, rfl⟩
  | num q => exact ⟨.typeError, rfl⟩
  | quant q => exact ⟨.typeError, rfl⟩

/-- A successful unpack means the value really was a two-element
iterable. -/
theorem unpack2_ok_two (v : PyVal) (pr : PyVal × PyVal)
    (h : unpack2 v = .ok pr) : twoElemIterable v := by
  cases v with
  | none => simp [unpack2] at h
  | num q => simp [unpack2] at h
  | quant q => simp [unpack2] at h
  | tup xs =>
      match xs, h with
      | [a, b], _ => exact rfl
  | str s =>
      show s.data.length = 2
      simp only [unpack2] at h
      rcases hd : s.data with _ | ⟨c1, _ | ⟨c2, _ | ⟨c3, rest⟩⟩⟩ <;>
        rw [hd] at h
      · exact absurd h (by simp)
      · exact absurd h (by simp)
      · rfl
      · exact absurd h (by simp)

/-- The kwargs loop fails whenever some keyword value is not a
two-element iterable. -/
theorem kwargsLoop_err (kwargs : List (String × PyVal)) :
    ∀ (attrs : List (String × PyVal)),
      (∃ kv ∈ kwargs, ¬ twoElemIterable kv.2) →
      ∃ e, kwargsLoop attrs kwargs = .error e := by
  induction kwargs with
  | nil =>
      intro attrs h
      obtain ⟨kv, hin, _⟩ := h
      simp at hin
  | cons kv rest ih =>
      intro attrs h
      simp only [kwargsLoop, List.foldlM_cons]
      cases hu : unpack2 kv.2 with
      | error e => exact ⟨e, by simp [hu, Bind.bind, Except.bind]⟩
      | ok pr =>
          obtain ⟨k, v⟩ := pr
          have hkv : twoElemIterable kv.2 := unpack2_ok_two kv.2 (k, v) hu
          obtain ⟨bad, hbin, hbad⟩ := h
          have hbrest : bad ∈ rest := by
            rcases List.mem_cons.mp hbin with hb | hb
            · exact absurd (hb ▸ hkv) hbad
            · exact hb
          cases k with
          | str s =>
              obtain ⟨e, he⟩ := ih (pySetAttr attrs s v) ⟨bad, hbrest, hbad⟩
              refine ⟨e, ?_⟩
              simp only [kwargsLoop] at he
              simp only [hu, Bind.bind, Except.bind]
              exact he
          | none => exact ⟨.typeError, by simp [hu, Bind.bind, Except.bind]⟩
          | num q => exact ⟨.typeError, by simp [hu, Bind.bind, Except.bind]⟩
          | quant q => exact ⟨.typeError, by simp [hu, Bind.bind, Except.bind]⟩
          | tup xs => exact ⟨.typeError, by simp [hu, Bind.bind, Except.bind]⟩

/-- C10.  `CustomMaterial` with any extra keyword argument whose value
is not a two-element iterable always raises an exception (the kwargs
loop unpacks each dictionary value as a key/value pair);
`CustomMetal` always raises `TypeError` for every input (its super call
passes `self` again, one positional argument too many); with no keyword
arguments `CustomMaterial` succeeds and sets exactly `name`, `density`,
`tensile_strength` and `mod_elast`. -/
theorem custom_material_constructors :
    (∀ (n d t m : PyVal) (kwargs : List (String × PyVal)),
        (∃ kv ∈ kwargs, ¬ twoElemIterable kv.2) →
        ∃ e, customMaterialInit n d t m kwargs = .error e)
    ∧ (∀ (selfV n d me ts p : PyVal) (kwargs : List (String × PyVal)),
        customMetalInit selfV n d me ts p kwargs = .error .typeError)
    ∧ (∀ (n d t m : PyVal),
        customMaterialInit n d t m []
          = .ok [("name", n), ("density", d), ("tensile_strength", t),
                 ("mod_elast", m)]) :=
  ⟨fun n d t m kwargs h => kwargsLoop_err kwargs _ h,
   fun _ _ _ _ _ _ _ => rfl,
   fun _ _ _ _ => rfl⟩

/-- Witness for C10: a single malformed keyword argument (a plain
number) makes the constructor fail. -/
theorem custom_material_constructors_witness :
    ∃ e, customMaterialInit PyVal.none PyVal.none PyVal.none PyVal.none
        [("extra", PyVal.num 5)] = .error e :=
  custom_material_constructors.1 PyVal.none PyVal.none PyVal.none PyVal.none
    [("extra", PyVal.num 5)]
    ⟨("extra", PyVal.num 5), List.mem_cons_self _ _, by decide⟩
